import Mathlib

/-!
Verification development for the htmu-tts voice-package pipeline.

The definitions below are a shallow embedding of the two source files of the
repository: `app.js` and the near-duplicate application variant embedded in
`sw.js` (together with the service-worker message listener at the top of
`sw.js`).  Pure data transformations (archive extraction, history update,
MIME selection, URL construction) are translated directly; stateful code is
modelled by explicit state records; the external collaborators (JSZip, the
engine `generate` call, IndexedDB) appear as explicit inputs describing
their observable outcome.
-/

set_option autoImplicit false

namespace HtmuTTS

/-- JS-object style association list update: `files[k] = v` keeps the first
occurrence position of an existing key and overwrites its value, otherwise
appends the new pair at the end (JS string-key insertion order). -/
def upsertKV {β : Type} (k : String) (v : β) : List (String × β) → List (String × β)
  | [] => [(k, v)]
  | (k', v') :: rest => if k' = k then (k, v) :: rest else (k', v') :: upsertKV k v rest

/-- JS-object style lookup `obj[k]`, `none` when the key is absent. -/
def lookupKV {β : Type} : List (String × β) → String → Option β
  | [], _ => none
  | (k', v') :: rest, k => if k' = k then some v' else lookupKV rest k

/-- One asset payload of the unpacked bundle: `zipEntry.async('string')`
gives decoded text, `zipEntry.async('arraybuffer')` gives raw bytes. -/
inductive Payload : Type
  | text (s : String)
  | bin (bytes : List Nat)
deriving DecidableEq, Repr

/-- Whether the payload was decoded as text. -/
def Payload.isText : Payload → Bool
  | .text _ => true
  | .bin _ => false

/-- One entry of the compressed archive as exposed by `JSZip.loadAsync`:
its full path `name`, the directory flag, and its raw byte content. -/
structure ZipEntry : Type where
  name : String
  dir : Bool
  content : List Nat
deriving DecidableEq, Repr

/-- JS `String.prototype.split(sep)` on character lists: `"".split(sep)`
gives one empty segment, separators delimit (possibly empty) segments. -/
def splitSegs (sep : Char) : List Char → List (List Char)
  | [] => [[]]
  | c :: rest =>
    let r := splitSegs sep rest
    if c = sep then [] :: r
    else
      match r with
      | [] => [[c]]
      | h :: t => (c :: h) :: t

/-- Whether the first character list is a leading run of the second. -/
def startsList : List Char → List Char → Bool
  | [], _ => true
  | _ :: _, [] => false
  | a :: as, b :: bs => a == b && startsList as bs

/-- JS `String.prototype.endsWith(pat)`. -/
def endsWithStr (s pat : String) : Bool :=
  startsList pat.data.reverse s.data.reverse

/-- JS whitespace for `String.prototype.trim`. -/
def isSpaceChar (c : Char) : Bool :=
  c == ' ' || c == '\t' || c == '\n' || c == '\r'

/-- JS `String.prototype.trim()`: strip whitespace from both ends. -/
def trimStr (s : String) : String :=
  String.mk (((s.data.dropWhile isSpaceChar).reverse.dropWhile isSpaceChar).reverse)

/-- `name.split('/').pop()` — the final path segment used as asset key. -/
def baseName (name : String) : String :=
  String.mk ((splitSegs ('/') name.data).getLastD [])

/-- Text decoding of `zipEntry.async('string')`, modelled byte-per-char. -/
def decodeText (bytes : List Nat) : String :=
  String.mk (bytes.map Char.ofNat)

/-- The asset key an archive entry is stored under (its bare filename). -/
def entryKey (e : ZipEntry) : String :=
  baseName e.name

/-- `baseName.endsWith('.js') ? await async('string') : await async('arraybuffer')`. -/
def entryPayload (e : ZipEntry) : Payload :=
  if endsWithStr (baseName e.name) ".js" then .text (decodeText e.content)
  else .bin e.content

/-- One iteration of the extraction loop: directory entries are skipped,
other entries are stored under their bare filename. -/
def addEntry (fs : List (String × Payload)) (e : ZipEntry) : List (String × Payload) :=
  if e.dir then fs else upsertKV (entryKey e) (entryPayload e) fs

/-- The extraction loop of `loadVoiceFile` (app.js:172-184, sw.js:311-323). -/
def extractFiles (entries : List ZipEntry) : List (String × Payload) :=
  entries.foldl addEntry []

/-- The `required` list of `loadVoiceFile` (app.js:187-188, sw.js:326-327). -/
def requiredAssets : List String :=
  ["sherpa-onnx-tts.js", "sherpa-onnx-wasm-main-tts.js",
   "sherpa-onnx-wasm-main-tts.wasm", "sherpa-onnx-wasm-main-tts.data"]

/-- The JS truthiness test `!files[req]`: an absent key is falsy, an empty
decoded string is falsy, any ArrayBuffer object is truthy. -/
def truthyPayload : Option Payload → Bool
  | none => false
  | some (.text s) => if s = "" then false else true
  | some (.bin _) => true

/-- Failure modes of the unpack stage. -/
inductive UnpackError : Type
  | CorruptArchive
  | IncompletePackage
deriving DecidableEq, Repr

/-- The unpack stage of `loadVoiceFile`: `JSZip.loadAsync` rejection is the
corrupt-archive case (`archive = none`); otherwise the entries are extracted
and the four required assets checked with the JS truthiness test
(app.js:163-193, sw.js:302-332). -/
def unpack (archive : Option (List ZipEntry)) : Except UnpackError (List (String × Payload)) :=
  match archive with
  | none => .error .CorruptArchive
  | some entries =>
    let files := extractFiles entries
    if requiredAssets.all (fun r => truthyPayload (lookupKV files r)) then .ok files
    else .error .IncompletePackage

/-- The `error.message` surfaced by the catch block of `loadVoiceFile`. -/
def errMessage : UnpackError → String
  | .CorruptArchive => "Corrupt archive"
  | .IncompletePackage => "Voice package is incomplete"

/-- Observable outcome of `await saveVoiceToStorage(...)`: the IndexedDB
`put` request either succeeds or rejects with an error message. -/
inductive StorageOutcome : Type
  | ok
  | err (msg : String)
deriving DecidableEq, Repr

/-- Result of one `loadVoiceFile` activation up to script injection:
either the catch block ran (`alert('Failed to load voice: ' + msg)`), or
the engine scripts were injected for the extracted bundle; `saved` records
whether the package was persisted during this activation. -/
inductive LoadOutcome : Type
  | failed (msg : String)
  | engineStarted (files : List (String × Payload)) (saved : Bool)
deriving DecidableEq, Repr

/-- Whether the activation reached the engine-start step. -/
def LoadOutcome.isStarted : LoadOutcome → Bool
  | .failed _ => false
  | .engineStarted _ _ => true

/-- The shared tail of `loadVoiceFile`: unpack the archive, then (when it
succeeds) hand the bundle to the engine-start code; any unpack exception
lands in the catch block. -/
def runUnpackStage (archive : Option (List ZipEntry)) (saved : Bool) : LoadOutcome :=
  match unpack archive with
  | .error e => .failed (errMessage e)
  | .ok files => .engineStarted files saved

/-- `loadVoiceFile` of app.js (lines 139-257): for a fresh `File` upload the
save to IndexedDB is awaited inside the try block before unpacking, so a
rejected save is caught and aborts the activation. -/
def loadVoiceFileApp (isFile : Bool) (save : StorageOutcome)
    (archive : Option (List ZipEntry)) : LoadOutcome :=
  if isFile then
    match save with
    | .err m => .failed m
    | .ok => runUnpackStage archive true
  else runUnpackStage archive false

/-- `loadVoiceFile` of the sw.js variant (lines 261-345): the save is only
attempted when `APP.db` is non-null (`dbAvailable`); with the DB missing the
save is skipped and the activation continues unsaved.  The file-system fast
path is stubbed (`voiceExistsInFileSystem` always returns false) and is
therefore never taken. -/
def loadVoiceFileSW (isFile dbAvailable : Bool) (save : StorageOutcome)
    (archive : Option (List ZipEntry)) : LoadOutcome :=
  if isFile && dbAvailable then
    match save with
    | .err m => .failed m
    | .ok => runUnpackStage archive true
  else runUnpackStage archive false

/-- The page globals touched by a `loadVoiceFile` call: the loading overlay,
its text, and the process-wide `window.Module` slot consumed by the injected
bootstrap script (recorded as the name of the activation that installed it). -/
structure PageGlobals : Type where
  loadingOverlayHidden : Bool
  loadingText : String
  moduleVoice : Option String
deriving DecidableEq, Repr

/-- How a `loadVoiceFile` call is dispatched at its entry point. -/
inductive LoadCallOutcome : Type
  | started
  | rejectedBusy
deriving DecidableEq, Repr

/-- Page state before any activation. -/
def initialGlobals : PageGlobals :=
  { loadingOverlayHidden := true, loadingText := "", moduleVoice := none }

/-- One `loadVoiceFile(...)` call as it acts on the page globals
(app.js:139-257, sw.js:261-345).  The function body begins unconditionally —
no in-flight-activation flag is consulted anywhere — shows the overlay, and
on a good archive installs this activation into the global `window.Module`
slot before injecting the scripts. -/
def loadVoiceCall (g : PageGlobals) (voiceName : String)
    (archive : Option (List ZipEntry)) : PageGlobals × LoadCallOutcome :=
  let g1 := { g with loadingOverlayHidden := false, loadingText := "Preparing voice..." }
  match unpack archive with
  | .error _ => ({ g1 with loadingOverlayHidden := true }, .started)
  | .ok _files =>
    ({ g1 with loadingText := "Starting voice engine...",
               moduleVoice := some voiceName }, .started)

/-- One `CACHE_VOICE_FILE` message posted to the service worker
(sw.js:364-369), as consumed by the message listener (sw.js:38-49). -/
structure CacheMsg : Type where
  url : String
  mimeType : String
deriving DecidableEq, Repr

/-- The MIME selection of `cacheVoiceFiles` (sw.js:360-362). -/
def mimeFor (name : String) : String :=
  if endsWithStr name ".wasm" then "application/wasm"
  else if endsWithStr name ".js" then "application/javascript"
  else "application/octet-stream"

/-- `baseUrl` of `cacheVoiceFiles` (sw.js:356); `pagePath` stands for
`location.origin` plus the directory part of `location.pathname`. -/
def voiceBaseUrl (pagePath voiceName : String) : String :=
  pagePath ++ "/voice/" ++ voiceName ++ "/"

/-- `cacheVoiceFiles(files, voiceName)` (sw.js:350-375): with no service
worker controller it returns null having sent nothing; otherwise it posts
one `CACHE_VOICE_FILE` message for every entry of the extracted bundle and
returns the base URL. -/
def cacheVoiceFiles (controllerAvailable : Bool) (files : List (String × Payload))
    (pagePath voiceName : String) : Option String × List CacheMsg :=
  if controllerAvailable then
    let base := voiceBaseUrl pagePath voiceName
    (some base, files.map (fun f => CacheMsg.mk (base ++ f.1) (mimeFor f.1)))
  else (none, [])

/-- The resolved reference handed to the engine for one binary asset:
a service-worker-cached URL, or an ephemeral blob URL over the raw bytes. -/
inductive DeliveryHandle : Type
  | cachedURL (url : String)
  | ephemeralHandle (bytes : List Nat)
deriving DecidableEq, Repr

/-- Whether the handle is the cached-URL variant. -/
def DeliveryHandle.isCachedURL : DeliveryHandle → Bool
  | .cachedURL _ => true
  | .ephemeralHandle _ => false

/-- Bytes wrapped by `new Blob([files[...]])` for the blob-URL fallback. -/
def payloadBytes : Option Payload → List Nat
  | some (.bin bytes) => bytes
  | some (.text s) => s.data.map Char.toNat
  | none => []

def wasmAssetName : String := "sherpa-onnx-wasm-main-tts.wasm"

def dataAssetName : String := "sherpa-onnx-wasm-main-tts.data"

/-- The URL resolution of `initTTSFromFiles` (sw.js:391-404): one branch on
the nullity of `baseUrl` fixes both `wasmUrl` and `dataUrl` together. -/
def resolveHandles (baseUrl : Option String) (files : List (String × Payload)) :
    DeliveryHandle × DeliveryHandle :=
  match baseUrl with
  | some b => (.cachedURL (b ++ wasmAssetName), .cachedURL (b ++ dataAssetName))
  | none =>
    (.ephemeralHandle (payloadBytes (lookupKV files wasmAssetName)),
     .ephemeralHandle (payloadBytes (lookupKV files dataAssetName)))

/-- `initTTSFromFiles` up to URL resolution (sw.js:380-404): attempt cache
registration, then resolve both binary-asset handles from its result. -/
def initTTSHandles (controllerAvailable : Bool) (files : List (String × Payload))
    (pagePath voiceName : String) : DeliveryHandle × DeliveryHandle :=
  resolveHandles (cacheVoiceFiles controllerAvailable files pagePath voiceName).1 files

/-- localStorage as seen by the history code; the JSON round-trip
(`JSON.stringify` / `JSON.parse` on a list of strings) is modelled as the
identity, so values are stored as the lists themselves. -/
abbrev HStore : Type := List (String × List String)

/-- The pure list update of `addToHistory` (app.js:592-594, sw.js:791-793):
drop existing occurrences of `text`, prepend it, keep the first 20. -/
def addToHistoryList (hist : List String) (text : String) : List String :=
  (text :: hist.filter (fun h => h != text)).take 20

/-- `addToHistory(text)` (app.js:591-596, sw.js:790-795): update the
in-memory list and write it to localStorage under the key used by the
source, `htmu_history`. -/
def addToHistory (hist : List String) (text : String) (ls : HStore) :
    List String × HStore :=
  let h := addToHistoryList hist text
  (h, upsertKV "htmu_history" h ls)

/-- The startup read `JSON.parse(localStorage.getItem('libby_history') || '[]')`
(app.js:746, sw.js:945): the key read is `libby_history`, defaulting to the
empty list. -/
def startupHistory (ls : HStore) : List String :=
  (lookupKV ls "libby_history").getD []

/-- The audio object returned by `APP.tts.generate(...)`. -/
structure AudioSamples : Type where
  samples : List Int
  sampleRate : Nat
deriving DecidableEq, Repr

/-- The application state read and written by `speak` (the fields of `APP`
it touches, the speak button, the status line, and localStorage). -/
structure AppSt : Type where
  tts : Bool
  isGenerating : Bool
  speakBtnDisabled : Bool
  statusText : String
  history : List String
  localStore : HStore
deriving DecidableEq, Repr

/-- `speak(text)` (app.js:549-568, sw.js:742-767).  The external engine call
is an input (`gen`): its success value or thrown message.  Returns the
post-state and whether `APP.tts.generate` was invoked.  The guard returns
with no action at all when the engine handle is null, the text trims to
empty, or a generation is already in flight; otherwise the try block runs,
the catch writes the error status, and the finally block clears
`isGenerating` and re-enables the button. -/
def speak (st : AppSt) (text : String) (gen : Except String AudioSamples) :
    AppSt × Bool :=
  if st.tts = false ∨ trimStr text = "" ∨ st.isGenerating = true then (st, false)
  else
    match gen with
    | .ok _audio =>
      let h := addToHistoryList st.history text
      ({ st with isGenerating := false, speakBtnDisabled := false,
                 statusText := "Playing...", history := h,
                 localStore := upsertKV "htmu_history" h st.localStore }, true)
    | .error m =>
      ({ st with isGenerating := false, speakBtnDisabled := false,
                 statusText := "Error: " ++ m }, true)

/-- A well-formed demo archive: the four required assets (some under nested
paths), one directory entry, and one extra asset. -/
def demoEntries : List ZipEntry :=
  [ { name := "model/", dir := true, content := [] },
    { name := "model/sherpa-onnx-tts.js", dir := false, content := [104, 105] },
    { name := "sherpa-onnx-wasm-main-tts.js", dir := false, content := [103] },
    { name := "sherpa-onnx-wasm-main-tts.wasm", dir := false, content := [0, 97] },
    { name := "model/sherpa-onnx-wasm-main-tts.data", dir := false, content := [7] },
    { name := "extra.txt", dir := false, content := [120] } ]

/-- A demo archive missing the binary data segment. -/
def demoIncompleteEntries : List ZipEntry :=
  [ { name := "sherpa-onnx-tts.js", dir := false, content := [104] },
    { name := "sherpa-onnx-wasm-main-tts.js", dir := false, content := [103] },
    { name := "sherpa-onnx-wasm-main-tts.wasm", dir := false, content := [0, 97] } ]

/-- A demo archive containing all four required asset names, where the
engine API script entry is present but has empty content. -/
def emptyScriptEntries : List ZipEntry :=
  [ { name := "sherpa-onnx-tts.js", dir := false, content := [] },
    { name := "sherpa-onnx-wasm-main-tts.js", dir := false, content := [103] },
    { name := "sherpa-onnx-wasm-main-tts.wasm", dir := false, content := [0, 97] },
    { name := "sherpa-onnx-wasm-main-tts.data", dir := false, content := [7] } ]

/-- The bundle extracted from the demo archive. -/
def demoFiles : List (String × Payload) :=
  extractFiles demoEntries

/-- Demo audio returned by a successful `generate` call. -/
def demoAudio : AudioSamples :=
  { samples := [1, -1], sampleRate := 22050 }

/-- Application state during an in-flight `generate` call: the engine handle
is live, `isGenerating` is set, the status line shows the first call's
progress text. -/
def busyState : AppSt :=
  { tts := true, isGenerating := true, speakBtnDisabled := true,
    statusText := "Generating...", history := [], localStore := [] }

/-- Application state before any voice has loaded: `APP.tts` is null. -/
def noEngineState : AppSt :=
  { tts := false, isGenerating := false, speakBtnDisabled := true,
    statusText := "", history := [], localStore := [] }

/-! Helper lemmas about the association-list operations and extraction. -/

theorem lookupKV_mem {β : Type} (fs : List (String × β)) (k : String) (v : β)
    (h : lookupKV fs k = some v) : (k, v) ∈ fs := by
  induction fs with
  | nil => simp [lookupKV] at h
  | cons hd tl ih =>
    obtain ⟨k', v'⟩ := hd
    by_cases hk : k' = k
    · subst hk
      simp [lookupKV] at h
      subst h
      exact List.mem_cons_self _ _
    · simp [lookupKV, hk] at h
      exact List.mem_cons_of_mem _ (ih h)

theorem mem_upsertKV {β : Type} (fs : List (String × β)) (k : String) (v : β)
    (p : String × β) (h : p ∈ upsertKV k v fs) : p = (k, v) ∨ p ∈ fs := by
  induction fs with
  | nil =>
    simp [upsertKV] at h
    exact Or.inl h
  | cons hd tl ih =>
    obtain ⟨k', v'⟩ := hd
    by_cases hk : k' = k
    · rw [upsertKV, if_pos hk] at h
      rcases List.mem_cons.mp h with h | h
      · exact Or.inl h
      · exact Or.inr (List.mem_cons_of_mem _ h)
    · rw [upsertKV, if_neg hk] at h
      rcases List.mem_cons.mp h with h | h
      · exact Or.inr (h ▸ List.mem_cons_self _ _)
      · rcases ih h with h2 | h2
        · exact Or.inl h2
        · exact Or.inr (List.mem_cons_of_mem _ h2)

theorem entryPayload_isText (e : ZipEntry) :
    (entryPayload e).isText = endsWithStr (entryKey e) ".js" := by
  by_cases hjs : endsWithStr (baseName e.name) ".js"
  · simp [entryPayload, entryKey, hjs, Payload.isText]
  · simp [entryPayload, entryKey, hjs, Payload.isText]

theorem foldl_addEntry_isText (entries : List ZipEntry)
    (acc : List (String × Payload))
    (hacc : ∀ p ∈ acc, p.2.isText = endsWithStr p.1 ".js") :
    ∀ p ∈ List.foldl addEntry acc entries, p.2.isText = endsWithStr p.1 ".js" := by
  induction entries generalizing acc with
  | nil => simpa using hacc
  | cons e rest ih =>
    intro p hp
    refine ih (addEntry acc e) ?_ p hp
    intro q hq
    rw [addEntry] at hq
    split at hq
    · exact hacc q hq
    · rcases mem_upsertKV _ _ _ _ hq with h | h
      · rw [h]
        exact entryPayload_isText e
      · exact hacc q h

/-- C1: `loadVoiceFile` contains no in-flight-activation check: starting
from the state of an in-flight activation for voice Emma (its locator is
installed in the global `window.Module` slot), a second `loadVoiceFile`
call for voice Liam is dispatched as `started` — not rejected with Busy —
and it overwrites the in-flight activation's slot, so the state of the
first activation is mutated and the two pipelines interleave. -/
theorem loadVoice_second_call_not_rejected :
    (loadVoiceCall initialGlobals "Emma" (some demoEntries)).1.moduleVoice = some "Emma" ∧
    (loadVoiceCall (loadVoiceCall initialGlobals "Emma" (some demoEntries)).1
      "Liam" (some demoEntries)).2 = .started ∧
    (loadVoiceCall (loadVoiceCall initialGlobals "Emma" (some demoEntries)).1
      "Liam" (some demoEntries)).1.moduleVoice = some "Liam" := by
  refine ⟨rfl, rfl, rfl⟩

/-- C2: an archive that decompresses successfully but whose extracted
bundle is missing one of the four required assets makes `unpack` fail with
IncompletePackage, and on any such activation (fresh upload or not, DB
present or not, save successful) both `loadVoiceFile` variants end in the
catch block with the incomplete-package message, so the engine is never
started for that activation. -/
theorem unpack_incomplete_rejects (entries : List ZipEntry) (r : String)
    (isFile dbAvailable : Bool)
    (hr : r ∈ requiredAssets)
    (hmiss : lookupKV (extractFiles entries) r = none) :
    unpack (some entries) = .error .IncompletePackage ∧
    loadVoiceFileApp isFile .ok (some entries) = .failed "Voice package is incomplete" ∧
    loadVoiceFileSW isFile dbAvailable .ok (some entries) = .failed "Voice package is incomplete" ∧
    (loadVoiceFileApp isFile .ok (some entries)).isStarted = false := by
  have hfalse : truthyPayload (lookupKV (extractFiles entries) r) = false := by
    rw [hmiss]
    rfl
  have hall : (requiredAssets.all
      (fun a => truthyPayload (lookupKV (extractFiles entries) a))) = false := by
    cases hA : requiredAssets.all
        (fun a => truthyPayload (lookupKV (extractFiles entries) a)) with
    | false => rfl
    | true =>
      have := List.all_eq_true.mp hA r hr
      rw [hfalse] at this
      cases this
  have hunp : unpack (some entries) = .error .IncompletePackage := by
    simp [unpack, hall]
  refine ⟨hunp, ?_, ?_, ?_⟩
  · cases isFile <;> simp [loadVoiceFileApp, runUnpackStage, hunp, errMessage]
  · cases isFile <;> cases dbAvailable <;>
      simp [loadVoiceFileSW, runUnpackStage, hunp, errMessage]
  · cases isFile <;>
      simp [loadVoiceFileApp, runUnpackStage, hunp, errMessage, LoadOutcome.isStarted]

/-- C2 witness: the demo archive missing the binary data segment. -/
theorem unpack_incomplete_rejects_witness :
    ("sherpa-onnx-wasm-main-tts.data" ∈ requiredAssets ∧
     lookupKV (extractFiles demoIncompleteEntries) "sherpa-onnx-wasm-main-tts.data" = none) ∧
    (unpack (some demoIncompleteEntries) = .error .IncompletePackage ∧
     loadVoiceFileApp true .ok (some demoIncompleteEntries) = .failed "Voice package is incomplete" ∧
     loadVoiceFileSW true true .ok (some demoIncompleteEntries) = .failed "Voice package is incomplete" ∧
     (loadVoiceFileApp true .ok (some demoIncompleteEntries)).isStarted = false) :=
  ⟨⟨by decide, by decide⟩,
   unpack_incomplete_rejects demoIncompleteEntries "sherpa-onnx-wasm-main-tts.data"
     true true (by decide) (by decide)⟩

/-- C3 counterexample: an archive whose entries include all four required
asset names (so the claim as stated applies), but whose engine API script
entry has empty content.  The source checks `!files[req]`, and the empty
decoded string is falsy, so `unpack` fails with IncompletePackage instead
of succeeding. -/
theorem unpack_empty_required_script_rejected :
    (requiredAssets.all
      (fun r => (lookupKV (extractFiles emptyScriptEntries) r).isSome)) = true ∧
    unpack (some emptyScriptEntries) = .error .IncompletePackage :=
  ⟨by decide, rfl⟩

/-- C3 (amended): for every archive whose extracted bundle passes the
source's truthiness test on the four required assets (present, and for the
two scripts decoding to non-empty text), `unpack` succeeds with the full
extracted bundle; every required asset is present under its bare filename,
and every asset of the bundle is decoded text exactly when its bare
filename ends in `.js`, raw binary otherwise. -/
theorem unpack_complete_bundle (entries : List ZipEntry) (r k : String) (v : Payload)
    (hreq : (requiredAssets.all
      (fun a => truthyPayload (lookupKV (extractFiles entries) a))) = true)
    (hr : r ∈ requiredAssets)
    (hk : lookupKV (extractFiles entries) k = some v) :
    unpack (some entries) = .ok (extractFiles entries) ∧
    (lookupKV (extractFiles entries) r).isSome = true ∧
    v.isText = endsWithStr k ".js" := by
  refine ⟨?_, ?_, ?_⟩
  · simp [unpack, hreq]
  · have := List.all_eq_true.mp hreq r hr
    cases hvl : lookupKV (extractFiles entries) r with
    | none =>
      rw [hvl] at this
      cases this
    | some v' => rfl
  · exact foldl_addEntry_isText entries [] (by simp) (k, v) (lookupKV_mem _ _ _ hk)

/-- C3 witness: the well-formed demo archive (nested paths, a directory
entry, an extra asset), instantiated at the binary module and at the extra
asset. -/
theorem unpack_complete_bundle_witness :
    ((requiredAssets.all
       (fun a => truthyPayload (lookupKV (extractFiles demoEntries) a))) = true ∧
     "sherpa-onnx-wasm-main-tts.wasm" ∈ requiredAssets ∧
     lookupKV (extractFiles demoEntries) "extra.txt" = some (.bin [120])) ∧
    (unpack (some demoEntries) = .ok (extractFiles demoEntries) ∧
     (lookupKV (extractFiles demoEntries) "sherpa-onnx-wasm-main-tts.wasm").isSome = true ∧
     (Payload.bin [120]).isText = endsWithStr "extra.txt" ".js") :=
  ⟨⟨by decide, by decide, by decide⟩,
   unpack_complete_bundle demoEntries "sherpa-onnx-wasm-main-tts.wasm" "extra.txt"
     (.bin [120]) (by decide) (by decide) (by decide)⟩

/-- C4: the URL resolution of `initTTSFromFiles` branches once on the
nullity of the base URL returned by `cacheVoiceFiles`, so the two binary
assets always resolve to the same DeliveryHandle variant — both cached URLs
exactly when the service-worker controller is available, both ephemeral
blob handles otherwise; a mixed pair never occurs. -/
theorem handle_variant_consistency (controllerAvailable : Bool)
    (files : List (String × Payload)) (pagePath voiceName : String) :
    (initTTSHandles controllerAvailable files pagePath voiceName).1.isCachedURL
      = controllerAvailable ∧
    (initTTSHandles controllerAvailable files pagePath voiceName).2.isCachedURL
      = controllerAvailable := by
  cases controllerAvailable <;>
    simp [initTTSHandles, cacheVoiceFiles, resolveHandles, DeliveryHandle.isCachedURL]

/-- C5: the history round-trip is broken by a key mismatch: a successful
synthesis of "Hello" writes the history list under localStorage key
`htmu_history` (app.js:595), but the next startup reads key `libby_history`
(app.js:746), so the list read back is the empty default instead of the
list that was written. -/
theorem history_key_mismatch :
    (addToHistory [] "Hello" []).1 = ["Hello"] ∧
    lookupKV (addToHistory [] "Hello" []).2 "htmu_history" = some ["Hello"] ∧
    startupHistory (addToHistory [] "Hello" []).2 = [] ∧
    decide (startupHistory (addToHistory [] "Hello" []).2
      = (addToHistory [] "Hello" []).1) = false := by
  refine ⟨rfl, rfl, rfl, by decide⟩

/-- C6 counterexample: an activation from a fresh upload of the well-formed
demo archive in which the IndexedDB save rejects.  In both variants the
rejected `await saveVoiceToStorage(...)` propagates to the catch block: the
activation ends Failed, the voice does not load for the session. -/
theorem storage_save_failure_aborts :
    loadVoiceFileApp true (.err "QuotaExceeded") (some demoEntries)
      = .failed "QuotaExceeded" ∧
    loadVoiceFileSW true true (.err "QuotaExceeded") (some demoEntries)
      = .failed "QuotaExceeded" ∧
    (loadVoiceFileApp true (.err "QuotaExceeded") (some demoEntries)).isStarted
      = false :=
  ⟨rfl, rfl, rfl⟩

/-- C6 (amended): the storage-optional degradation exists only in the sw.js
variant and only for an unavailable storage layer: when `APP.db` is null,
a fresh upload skips persistence entirely (whatever the save outcome would
have been) and the activation continues to engine start unsaved; but when
the save call itself fails mid-activation, both variants abort with Failed
carrying the storage error. -/
theorem storage_unavailable_nonfatal (save : StorageOutcome) (m : String)
    (entries : List ZipEntry) (files : List (String × Payload))
    (hok : unpack (some entries) = .ok files) :
    loadVoiceFileSW true false save (some entries) = .engineStarted files false ∧
    loadVoiceFileApp true (.err m) (some entries) = .failed m ∧
    loadVoiceFileSW true true (.err m) (some entries) = .failed m := by
  refine ⟨?_, rfl, rfl⟩
  simp [loadVoiceFileSW, runUnpackStage, hok]

/-- C6 witness: the demo archive, a rejecting save, DB unavailable. -/
theorem storage_unavailable_nonfatal_witness :
    unpack (some demoEntries) = .ok demoFiles ∧
    (loadVoiceFileSW true false (.err "QuotaExceeded") (some demoEntries)
       = .engineStarted demoFiles false ∧
     loadVoiceFileApp true (.err "QuotaExceeded") (some demoEntries)
       = .failed "QuotaExceeded" ∧
     loadVoiceFileSW true true (.err "QuotaExceeded") (some demoEntries)
       = .failed "QuotaExceeded") :=
  ⟨rfl, storage_unavailable_nonfatal (.err "QuotaExceeded") "QuotaExceeded"
    demoEntries demoFiles rfl⟩

/-- C7 counterexample: a `speak` call issued while a previous generate call
is in flight (`APP.isGenerating` set, status line showing the first call's
progress text).  The second call is a complete silent no-op: the returned
state is identical to the input state — nothing is reported to the user at
all, in particular no busy report is produced; the only status on screen
remains the first call's text. -/
theorem speak_busy_silent_noop :
    speak busyState "Hello" (.ok demoAudio) = (busyState, false) ∧
    busyState.statusText = "Generating..." :=
  ⟨by decide, rfl⟩

/-- C7 (amended): while a generate call is in flight, every further `speak`
call returns immediately as a silent no-op: the engine is not invoked, the
request is not queued, and the history, status text, localStorage, and all
other observable state are unchanged (no separate busy report is shown —
the status line simply still carries the in-flight call's text). -/
theorem speak_reentrancy_guard (st : AppSt) (text : String)
    (gen : Except String AudioSamples) (h : st.isGenerating = true) :
    speak st text gen = (st, false) := by
  simp [speak, h]

/-- C7 witness: the in-flight state. -/
theorem speak_reentrancy_guard_witness :
    busyState.isGenerating = true ∧
    speak busyState "Hi" (.ok demoAudio) = (busyState, false) :=
  ⟨rfl, speak_reentrancy_guard busyState "Hi" (.ok demoAudio) rfl⟩

/-- C8 counterexample: with the prior history list ["a", "a"] (such a list
is reachable, e.g. read back from localStorage at startup), a successful
synthesis of "b" produces ["b", "a", "a"], which contains duplicate
entries — `addToHistory` only removes occurrences of the newly spoken
text, it does not de-duplicate the rest of the list. -/
theorem addToHistory_duplicates_preserved :
    addToHistoryList ["a", "a"] "b" = ["b", "a", "a"] ∧
    decide ((addToHistoryList ["a", "a"] "b").Nodup) = false :=
  ⟨by decide, by decide⟩

/-- C8 (amended): for every prior history list that is itself free of
duplicates and every spoken text, the updated history begins with that
text, is free of duplicates, has length at most 20, and its remaining
entries appear in the same relative order as in the prior list. -/
theorem addToHistory_postcondition (hist : List String) (text : String)
    (hnd : hist.Nodup) :
    (addToHistoryList hist text).head? = some text ∧
    (addToHistoryList hist text).Nodup ∧
    (addToHistoryList hist text).length ≤ 20 ∧
    (addToHistoryList hist text).tail.Sublist hist := by
  have hrw : addToHistoryList hist text
      = text :: (hist.filter (fun h => h != text)).take 19 := rfl
  have hsub : ((hist.filter (fun h => h != text)).take 19).Sublist hist :=
    (List.take_sublist _ _).trans (List.filter_sublist _)
  refine ⟨by rw [hrw]; rfl, ?_, ?_, ?_⟩
  · rw [hrw, List.nodup_cons]
    refine ⟨?_, hnd.sublist hsub⟩
    intro hmem
    have hmem2 : text ∈ hist.filter (fun h => h != text) :=
      List.take_subset _ _ hmem
    have := (List.mem_filter.mp hmem2).2
    simp at this
  · rw [hrw]
    simp [List.length_take]
  · rw [hrw]
    exact hsub

/-- C8 witness: a duplicate-free prior history. -/
theorem addToHistory_postcondition_witness :
    (["x", "y"] : List String).Nodup ∧
    ((addToHistoryList ["x", "y"] "z").head? = some "z" ∧
     (addToHistoryList ["x", "y"] "z").Nodup ∧
     (addToHistoryList ["x", "y"] "z").length ≤ 20 ∧
     (addToHistoryList ["x", "y"] "z").tail.Sublist ["x", "y"]) :=
  ⟨by decide, addToHistory_postcondition ["x", "y"] "z" (by decide)⟩

/-- C9 counterexample: on an activation of the demo bundle (four required
assets plus one extra) with the Delivery Cache available, `cacheVoiceFiles`
posts five CACHE_VOICE_FILE messages — one per bundle entry, not two: in
particular the engine API script, a non-binary asset, also gets a message. -/
theorem cacheVoiceFiles_sends_for_all_assets :
    (cacheVoiceFiles true demoFiles "https://app.example" "Emma").2.length = 5 ∧
    decide ((cacheVoiceFiles true demoFiles "https://app.example" "Emma").2.length = 2)
      = false ∧
    CacheMsg.mk "https://app.example/voice/Emma/sherpa-onnx-tts.js"
      "application/javascript"
      ∈ (cacheVoiceFiles true demoFiles "https://app.example" "Emma").2 :=
  ⟨by decide, by decide, by decide⟩

/-- C9 (amended): when the service-worker controller is available, the
activation sends exactly one cache message per entry of the extracted
bundle — scripts and extras included, so the message count equals the
bundle size rather than two — and each asset's message carries its
namespaced URL and its MIME type; the binary module and the binary data
segment each account for exactly one of these messages. -/
theorem cacheVoiceFiles_message_per_asset (files : List (String × Payload))
    (pagePath voiceName nm : String) (p : Payload)
    (hmem : (nm, p) ∈ files) :
    (cacheVoiceFiles true files pagePath voiceName).2.length = files.length ∧
    CacheMsg.mk (voiceBaseUrl pagePath voiceName ++ nm) (mimeFor nm)
      ∈ (cacheVoiceFiles true files pagePath voiceName).2 ∧
    (cacheVoiceFiles true files pagePath voiceName).1
      = some (voiceBaseUrl pagePath voiceName) := by
  have hc : cacheVoiceFiles true files pagePath voiceName
      = (some (voiceBaseUrl pagePath voiceName),
         files.map (fun f =>
           CacheMsg.mk (voiceBaseUrl pagePath voiceName ++ f.1) (mimeFor f.1))) := rfl
  rw [hc]
  refine ⟨List.length_map _ _, ?_, rfl⟩
  exact List.mem_map.mpr ⟨(nm, p), hmem, rfl⟩

/-- C9 witness: the wasm binary module of the demo bundle. -/
theorem cacheVoiceFiles_message_per_asset_witness :
    ("sherpa-onnx-wasm-main-tts.wasm", Payload.bin [0, 97]) ∈ demoFiles ∧
    ((cacheVoiceFiles true demoFiles "https://app.example" "Emma").2.length
       = demoFiles.length ∧
     CacheMsg.mk (voiceBaseUrl "https://app.example" "Emma"
         ++ "sherpa-onnx-wasm-main-tts.wasm")
       (mimeFor "sherpa-onnx-wasm-main-tts.wasm")
       ∈ (cacheVoiceFiles true demoFiles "https://app.example" "Emma").2 ∧
     (cacheVoiceFiles true demoFiles "https://app.example" "Emma").1
       = some (voiceBaseUrl "https://app.example" "Emma")) :=
  ⟨by decide, cacheVoiceFiles_message_per_asset demoFiles "https://app.example"
    "Emma" "sherpa-onnx-wasm-main-tts.wasm" (Payload.bin [0, 97]) (by decide)⟩

/-- C10: the guard at the top of `speak` makes every call issued with a
null engine handle, or with text that trims to the empty string, return
immediately as a complete no-op: `generate` is never invoked and the
history, status text, localStorage, and all other observable state are
unchanged. -/
theorem speak_noop_guard (st : AppSt) (text : String)
    (gen : Except String AudioSamples)
    (h : st.tts = false ∨ trimStr text = "") :
    speak st text gen = (st, false) := by
  rcases h with h | h <;> simp [speak, h]

/-- C10 witness: the engine-not-loaded state. -/
theorem speak_noop_guard_witness :
    (noEngineState.tts = false ∨ trimStr "Hello" = "") ∧
    speak noEngineState "Hello" (.ok demoAudio) = (noEngineState, false) :=
  ⟨Or.inl rfl, speak_noop_guard noEngineState "Hello" (.ok demoAudio) (Or.inl rfl)⟩

end HtmuTTS
